import Mathlib

/-!
Verification of the Empire of Silence backend's progression and prison
logic. The Node.js handlers are embedded shallowly: a player row of the
`players` table is a structure, each HTTP handler is a pure function from
the loaded state and the random draws (`Math.random()` samples in `[0,1)`
passed explicitly as rationals) to the updated state and the JSON response,
and SQL UPDATE / INSERT statements become functional record updates and
ledger appends. Timestamps are milliseconds since the epoch as naturals.
-/

/-- A row of the `players` table. -/
structure Player where
  id : Nat
  name : String
  cash : Int
  respect : Int
  heat : Int
  xp : Nat
  rank : String
  prestige : Nat
  in_prison_until : Option Nat
deriving DecidableEq, Repr

/-- `getRank` from the main backend: the experience-to-rank ladder. -/
def getRank (xp : Nat) : String :=
  if xp < 100 then "Street Rat"
  else if xp < 300 then "Errand Boy"
  else if xp < 800 then "Associate"
  else if xp < 2000 then "Muscle"
  else if xp < 5000 then "Enforcer"
  else if xp < 15000 then "Caporegime"
  else if xp < 40000 then "Underboss"
  else if xp < 100000 then "Consigliere"
  else if xp < 250000 then "Boss"
  else "Godfather"

/-- The `ranks` array used by the unlock gate and the bust odds. -/
def rankNames : List String :=
  ["Street Rat", "Errand Boy", "Associate", "Muscle", "Enforcer",
   "Caporegime", "Underboss", "Consigliere", "Boss", "Godfather"]

/-- The `ranks` threshold table of the fixed backend variant. -/
def ranksTable : List (String × Nat) :=
  [("Street Rat", 0), ("Errand Boy", 100), ("Associate", 300), ("Muscle", 800),
   ("Enforcer", 2000), ("Caporegime", 5000), ("Underboss", 15000),
   ("Consigliere", 40000), ("Boss", 100000), ("Godfather", 250000)]

/-- `getRankByXP` from the fixed backend variant: the loop keeps the last
ladder entry whose threshold the experience meets. -/
def getRankByXP (xp : Nat) : String :=
  ranksTable.foldl (fun rank r => if r.2 ≤ xp then r.1 else rank) "Street Rat"

/-- JavaScript `Array.prototype.indexOf` on a string array: the first index
holding `s`, or `-1` when `s` is absent. -/
def jsIndexOf : List String → String → Int
  | [], _ => -1
  | h :: t, s =>
    if h = s then 0
    else if jsIndexOf t s = -1 then -1 else jsIndexOf t s + 1

set_option maxHeartbeats 1000000 in
/-- Closed form of the fixed variant's fold over the ladder. -/
theorem getRankByXP_eval (xp : Nat) : getRankByXP xp =
    (if 250000 ≤ xp then "Godfather"
    else if 100000 ≤ xp then "Boss"
    else if 40000 ≤ xp then "Consigliere"
    else if 15000 ≤ xp then "Underboss"
    else if 5000 ≤ xp then "Caporegime"
    else if 2000 ≤ xp then "Enforcer"
    else if 800 ≤ xp then "Muscle"
    else if 300 ≤ xp then "Associate"
    else if 100 ≤ xp then "Errand Boy"
    else "Street Rat") := by
  unfold getRankByXP ranksTable
  simp only [List.foldl_cons, List.foldl_nil]
  norm_num

/-- `getRank` in the same closed form, by interval analysis. -/
theorem getRank_eval (xp : Nat) : getRank xp =
    (if 250000 ≤ xp then "Godfather"
    else if 100000 ≤ xp then "Boss"
    else if 40000 ≤ xp then "Consigliere"
    else if 15000 ≤ xp then "Underboss"
    else if 5000 ≤ xp then "Caporegime"
    else if 2000 ≤ xp then "Enforcer"
    else if 800 ≤ xp then "Muscle"
    else if 300 ≤ xp then "Associate"
    else if 100 ≤ xp then "Errand Boy"
    else "Street Rat") := by
  unfold getRank
  have tri : xp < 100 ∨ (100 ≤ xp ∧ xp < 300) ∨ (300 ≤ xp ∧ xp < 800) ∨ (800 ≤ xp ∧ xp < 2000) ∨ (2000 ≤ xp ∧ xp < 5000) ∨ (5000 ≤ xp ∧ xp < 15000) ∨ (15000 ≤ xp ∧ xp < 40000) ∨ (40000 ≤ xp ∧ xp < 100000) ∨ (100000 ≤ xp ∧ xp < 250000) ∨ 250000 ≤ xp := by omega
  rcases tri with h|⟨h1, h2⟩|⟨h1, h2⟩|⟨h1, h2⟩|⟨h1, h2⟩|⟨h1, h2⟩|⟨h1, h2⟩|⟨h1, h2⟩|⟨h1, h2⟩|h
  · rw [if_pos (show xp < 100 by omega),
        if_neg (show ¬ 250000 ≤ xp by omega),
        if_neg (show ¬ 100000 ≤ xp by omega),
        if_neg (show ¬ 40000 ≤ xp by omega),
        if_neg (show ¬ 15000 ≤ xp by omega),
        if_neg (show ¬ 5000 ≤ xp by omega),
        if_neg (show ¬ 2000 ≤ xp by omega),
        if_neg (show ¬ 800 ≤ xp by omega),
        if_neg (show ¬ 300 ≤ xp by omega),
        if_neg (show ¬ 100 ≤ xp by omega)]
  · rw [if_neg (show ¬ xp < 100 by omega),
        if_pos (show xp < 300 by omega),
        if_neg (show ¬ 250000 ≤ xp by omega),
        if_neg (show ¬ 100000 ≤ xp by omega),
        if_neg (show ¬ 40000 ≤ xp by omega),
        if_neg (show ¬ 15000 ≤ xp by omega),
        if_neg (show ¬ 5000 ≤ xp by omega),
        if_neg (show ¬ 2000 ≤ xp by omega),
        if_neg (show ¬ 800 ≤ xp by omega),
        if_neg (show ¬ 300 ≤ xp by omega),
        if_pos (show 100 ≤ xp by omega)]
  · rw [if_neg (show ¬ xp < 100 by omega),
        if_neg (show ¬ xp < 300 by omega),
        if_pos (show xp < 800 by omega),
        if_neg (show ¬ 250000 ≤ xp by omega),
        if_neg (show ¬ 100000 ≤ xp by omega),
        if_neg (show ¬ 40000 ≤ xp by omega),
        if_neg (show ¬ 15000 ≤ xp by omega),
        if_neg (show ¬ 5000 ≤ xp by omega),
        if_neg (show ¬ 2000 ≤ xp by omega),
        if_neg (show ¬ 800 ≤ xp by omega),
        if_pos (show 300 ≤ xp by omega)]
  · rw [if_neg (show ¬ xp < 100 by omega),
        if_neg (show ¬ xp < 300 by omega),
        if_neg (show ¬ xp < 800 by omega),
        if_pos (show xp < 2000 by omega),
        if_neg (show ¬ 250000 ≤ xp by omega),
        if_neg (show ¬ 100000 ≤ xp by omega),
        if_neg (show ¬ 40000 ≤ xp by omega),
        if_neg (show ¬ 15000 ≤ xp by omega),
        if_neg (show ¬ 5000 ≤ xp by omega),
        if_neg (show ¬ 2000 ≤ xp by omega),
        if_pos (show 800 ≤ xp by omega)]
  · rw [if_neg (show ¬ xp < 100 by omega),
        if_neg (show ¬ xp < 300 by omega),
        if_neg (show ¬ xp < 800 by omega),
        if_neg (show ¬ xp < 2000 by omega),
        if_pos (show xp < 5000 by omega),
        if_neg (show ¬ 250000 ≤ xp by omega),
        if_neg (show ¬ 100000 ≤ xp by omega),
        if_neg (show ¬ 40000 ≤ xp by omega),
        if_neg (show ¬ 15000 ≤ xp by omega),
        if_neg (show ¬ 5000 ≤ xp by omega),
        if_pos (show 2000 ≤ xp by omega)]
  · rw [if_neg (show ¬ xp < 100 by omega),
        if_neg (show ¬ xp < 300 by omega),
        if_neg (show ¬ xp < 800 by omega),
        if_neg (show ¬ xp < 2000 by omega),
        if_neg (show ¬ xp < 5000 by omega),
        if_pos (show xp < 15000 by omega),
        if_neg (show ¬ 250000 ≤ xp by omega),
        if_neg (show ¬ 100000 ≤ xp by omega),
        if_neg (show ¬ 40000 ≤ xp by omega),
        if_neg (show ¬ 15000 ≤ xp by omega),
        if_pos (show 5000 ≤ xp by omega)]
  · rw [if_neg (show ¬ xp < 100 by omega),
        if_neg (show ¬ xp < 300 by omega),
        if_neg (show ¬ xp < 800 by omega),
        if_neg (show ¬ xp < 2000 by omega),
        if_neg (show ¬ xp < 5000 by omega),
        if_neg (show ¬ xp < 15000 by omega),
        if_pos (show xp < 40000 by omega),
        if_neg (show ¬ 250000 ≤ xp by omega),
        if_neg (show ¬ 100000 ≤ xp by omega),
        if_neg (show ¬ 40000 ≤ xp by omega),
        if_pos (show 15000 ≤ xp by omega)]
  · rw [if_neg (show ¬ xp < 100 by omega),
        if_neg (show ¬ xp < 300 by omega),
        if_neg (show ¬ xp < 800 by omega),
        if_neg (show ¬ xp < 2000 by omega),
        if_neg (show ¬ xp < 5000 by omega),
        if_neg (show ¬ xp < 15000 by omega),
        if_neg (show ¬ xp < 40000 by omega),
        if_pos (show xp < 100000 by omega),
        if_neg (show ¬ 250000 ≤ xp by omega),
        if_neg (show ¬ 100000 ≤ xp by omega),
        if_pos (show 40000 ≤ xp by omega)]
  · rw [if_neg (show ¬ xp < 100 by omega),
        if_neg (show ¬ xp < 300 by omega),
        if_neg (show ¬ xp < 800 by omega),
        if_neg (show ¬ xp < 2000 by omega),
        if_neg (show ¬ xp < 5000 by omega),
        if_neg (show ¬ xp < 15000 by omega),
        if_neg (show ¬ xp < 40000 by omega),
        if_neg (show ¬ xp < 100000 by omega),
        if_pos (show xp < 250000 by omega),
        if_neg (show ¬ 250000 ≤ xp by omega),
        if_pos (show 100000 ≤ xp by omega)]
  · rw [if_neg (show ¬ xp < 100 by omega),
        if_neg (show ¬ xp < 300 by omega),
        if_neg (show ¬ xp < 800 by omega),
        if_neg (show ¬ xp < 2000 by omega),
        if_neg (show ¬ xp < 5000 by omega),
        if_neg (show ¬ xp < 15000 by omega),
        if_neg (show ¬ xp < 40000 by omega),
        if_neg (show ¬ xp < 100000 by omega),
        if_neg (show ¬ xp < 250000 by omega),
        if_pos (show 250000 ≤ xp by omega)]

/-- Every threshold in the ladder is one of the ten listed values. -/
theorem ranksTable_thresholds (n : String) (t2 : Nat) (h : (n, t2) ∈ ranksTable) :
    t2 = 0 ∨ t2 = 100 ∨ t2 = 300 ∨ t2 = 800 ∨ t2 = 2000 ∨ t2 = 5000 ∨
    t2 = 15000 ∨ t2 = 40000 ∨ t2 = 100000 ∨ t2 = 250000 := by
  simp [ranksTable] at h
  rcases h with ⟨_, rfl⟩|⟨_, rfl⟩|⟨_, rfl⟩|⟨_, rfl⟩|⟨_, rfl⟩|⟨_, rfl⟩|⟨_, rfl⟩|⟨_, rfl⟩|⟨_, rfl⟩|⟨_, rfl⟩ <;> simp

/-- `getRank xp` is a ladder entry whose threshold is the greatest one at or
below `xp`. -/
theorem getRank_is_max (xp : Nat) : ∃ t : Nat, (getRank xp, t) ∈ ranksTable ∧ t ≤ xp ∧
    ∀ n t2, (n, t2) ∈ ranksTable → t2 ≤ xp → t2 ≤ t := by
  unfold getRank
  have tri : xp < 100 ∨ (100 ≤ xp ∧ xp < 300) ∨ (300 ≤ xp ∧ xp < 800) ∨ (800 ≤ xp ∧ xp < 2000) ∨ (2000 ≤ xp ∧ xp < 5000) ∨ (5000 ≤ xp ∧ xp < 15000) ∨ (15000 ≤ xp ∧ xp < 40000) ∨ (40000 ≤ xp ∧ xp < 100000) ∨ (100000 ≤ xp ∧ xp < 250000) ∨ 250000 ≤ xp := by omega
  rcases tri with h|⟨h1, h2⟩|⟨h1, h2⟩|⟨h1, h2⟩|⟨h1, h2⟩|⟨h1, h2⟩|⟨h1, h2⟩|⟨h1, h2⟩|⟨h1, h2⟩|h
  · rw [if_pos (show xp < 100 by omega)]
    exact ⟨0, by decide, by omega, fun n t2 hm hle => by have := ranksTable_thresholds n t2 hm; omega⟩
  · rw [if_neg (show ¬ xp < 100 by omega),
        if_pos (show xp < 300 by omega)]
    exact ⟨100, by decide, by omega, fun n t2 hm hle => by have := ranksTable_thresholds n t2 hm; omega⟩
  · rw [if_neg (show ¬ xp < 100 by omega),
        if_neg (show ¬ xp < 300 by omega),
        if_pos (show xp < 800 by omega)]
    exact ⟨300, by decide, by omega, fun n t2 hm hle => by have := ranksTable_thresholds n t2 hm; omega⟩
  · rw [if_neg (show ¬ xp < 100 by omega),
        if_neg (show ¬ xp < 300 by omega),
        if_neg (show ¬ xp < 800 by omega),
        if_pos (show xp < 2000 by omega)]
    exact ⟨800, by decide, by omega, fun n t2 hm hle => by have := ranksTable_thresholds n t2 hm; omega⟩
  · rw [if_neg (show ¬ xp < 100 by omega),
        if_neg (show ¬ xp < 300 by omega),
        if_neg (show ¬ xp < 800 by omega),
        if_neg (show ¬ xp < 2000 by omega),
        if_pos (show xp < 5000 by omega)]
    exact ⟨2000, by decide, by omega, fun n t2 hm hle => by have := ranksTable_thresholds n t2 hm; omega⟩
  · rw [if_neg (show ¬ xp < 100 by omega),
        if_neg (show ¬ xp < 300 by omega),
        if_neg (show ¬ xp < 800 by omega),
        if_neg (show ¬ xp < 2000 by omega),
        if_neg (show ¬ xp < 5000 by omega),
        if_pos (show xp < 15000 by omega)]
    exact ⟨5000, by decide, by omega, fun n t2 hm hle => by have := ranksTable_thresholds n t2 hm; omega⟩
  · rw [if_neg (show ¬ xp < 100 by omega),
        if_neg (show ¬ xp < 300 by omega),
        if_neg (show ¬ xp < 800 by omega),
        if_neg (show ¬ xp < 2000 by omega),
        if_neg (show ¬ xp < 5000 by omega),
        if_neg (show ¬ xp < 15000 by omega),
        if_pos (show xp < 40000 by omega)]
    exact ⟨15000, by decide, by omega, fun n t2 hm hle => by have := ranksTable_thresholds n t2 hm; omega⟩
  · rw [if_neg (show ¬ xp < 100 by omega),
        if_neg (show ¬ xp < 300 by omega),
        if_neg (show ¬ xp < 800 by omega),
        if_neg (show ¬ xp < 2000 by omega),
        if_neg (show ¬ xp < 5000 by omega),
        if_neg (show ¬ xp < 15000 by omega),
        if_neg (show ¬ xp < 40000 by omega),
        if_pos (show xp < 100000 by omega)]
    exact ⟨40000, by decide, by omega, fun n t2 hm hle => by have := ranksTable_thresholds n t2 hm; omega⟩
  · rw [if_neg (show ¬ xp < 100 by omega),
        if_neg (show ¬ xp < 300 by omega),
        if_neg (show ¬ xp < 800 by omega),
        if_neg (show ¬ xp < 2000 by omega),
        if_neg (show ¬ xp < 5000 by omega),
        if_neg (show ¬ xp < 15000 by omega),
        if_neg (show ¬ xp < 40000 by omega),
        if_neg (show ¬ xp < 100000 by omega),
        if_pos (show xp < 250000 by omega)]
    exact ⟨100000, by decide, by omega, fun n t2 hm hle => by have := ranksTable_thresholds n t2 hm; omega⟩
  · rw [if_neg (show ¬ xp < 100 by omega),
        if_neg (show ¬ xp < 300 by omega),
        if_neg (show ¬ xp < 800 by omega),
        if_neg (show ¬ xp < 2000 by omega),
        if_neg (show ¬ xp < 5000 by omega),
        if_neg (show ¬ xp < 15000 by omega),
        if_neg (show ¬ xp < 40000 by omega),
        if_neg (show ¬ xp < 100000 by omega),
        if_neg (show ¬ xp < 250000 by omega)]
    exact ⟨250000, by decide, by omega, fun n t2 hm hle => by have := ranksTable_thresholds n t2 hm; omega⟩

/-- C1: for every non-negative experience, `getRank` agrees with the fixed
variant's `getRankByXP` and returns exactly the ladder entry whose threshold
is the greatest one at or below the experience; the thresholds are strictly
increasing (so that entry is unique), and the landmark experience values map
as the spec lists them. -/
theorem getRank_unique_max (xp : Nat) :
    getRank xp = getRankByXP xp
    ∧ (∃ t : Nat, (getRank xp, t) ∈ ranksTable ∧ t ≤ xp ∧
        ∀ n t2, (n, t2) ∈ ranksTable → t2 ≤ xp → t2 ≤ t)
    ∧ List.Pairwise (fun a b : String × Nat => a.2 < b.2) ranksTable
    ∧ getRank 0 = "Street Rat" ∧ getRank 99 = "Street Rat"
    ∧ getRank 100 = "Errand Boy" ∧ getRank 249999 = "Boss"
    ∧ getRank 250000 = "Godfather" := by
  refine ⟨?_, getRank_is_max xp, by decide, by decide, by decide, by decide, by decide, by decide⟩
  rw [getRank_eval, getRankByXP_eval]

/-- A crime definition from the main backend's `crimeTypes` catalog. -/
structure Crime where
  minRank : String
  xp : Nat
  cashMin : Nat
  cashMax : Nat
  heat : Int
  jail : Nat
  successRate : ℚ
deriving DecidableEq, Repr

/-- The `crimeTypes` catalog of the main backend. -/
def crimeList : List (String × Crime) :=
  [("pickpocket", ⟨"Street Rat", 5, 20, 50, 1, 30, 8/10⟩),
   ("shoplift", ⟨"Errand Boy", 8, 50, 120, 2, 60, 75/100⟩),
   ("vandalism", ⟨"Associate", 10, 80, 150, 3, 120, 7/10⟩),
   ("car_theft", ⟨"Muscle", 20, 300, 1000, 4, 300, 55/100⟩),
   ("smuggling", ⟨"Enforcer", 25, 500, 1500, 5, 600, 6/10⟩),
   ("kidnap", ⟨"Caporegime", 50, 2000, 5000, 8, 1200, 4/10⟩),
   ("blackmail", ⟨"Caporegime", 40, 1500, 4000, 7, 900, 45/100⟩),
   ("drug_deal", ⟨"Underboss", 60, 3000, 7000, 10, 1800, 5/10⟩),
   ("hijack_truck", ⟨"Underboss", 90, 6000, 12000, 12, 2700, 3/10⟩),
   ("rob_bank", ⟨"Consigliere", 120, 10000, 25000, 15, 3600, 2/10⟩),
   ("arms_deal", ⟨"Consigliere", 150, 10000, 30000, 20, 7200, 25/100⟩),
   ("political_hit", ⟨"Boss", 200, 50000, 100000, 25, 10800, 1/10⟩),
   ("legendary_heist", ⟨"Godfather", 500, 200000, 500000, 50, 21600, 5/100⟩)]

/-- `crimeTypes[type]`. -/
def crimeTypes (t : String) : Option Crime :=
  crimeList.lookup t

/-- `player.in_prison_until && new Date(player.in_prison_until) > new Date()`. -/
def inPrison (p : Player) (now : Nat) : Bool :=
  match p.in_prison_until with
  | none => false
  | some t => decide (now < t)

/-- `successChance = crime.successRate * (1 + player.prestige * 0.05)`. -/
def successChance (c : Crime) (prestige : Nat) : ℚ :=
  c.successRate * (1 + (prestige : ℚ) * (5/100))

/-- `Math.floor(Math.random() * (max - min + 1)) + min` with the reward draw
`r2 ∈ [0,1)` explicit. -/
def crimeReward (c : Crime) (r2 : ℚ) : Int :=
  Int.floor (r2 * ((c.cashMax - c.cashMin + 1 : Nat) : ℚ)) + (c.cashMin : Int)

/-- The success branch's player UPDATE: cash, xp and heat deltas. -/
def applyCrimeSuccess (p : Player) (c : Crime) (r2 : ℚ) : Player :=
  { p with cash := p.cash + crimeReward c r2, xp := p.xp + c.xp, heat := p.heat + c.heat }

/-- The failure branch's player UPDATE: jailed until `now + crime.jail * 1000` ms. -/
def applyCrimeFail (p : Player) (c : Crime) (now : Nat) : Player :=
  { p with in_prison_until := some (now + c.jail * 1000) }

def successMessage (c : Crime) (r2 : ℚ) : String :=
  "✅ Success! You earned $" ++ toString (crimeReward c r2) ++ " and " ++
    toString c.xp ++ " XP."

def failMessage (c : Crime) : String :=
  "❌ Failed! You are in prison for " ++ toString ((c.jail : ℚ) / 60) ++ " minutes."

def prestigeNote (level : Nat) : String :=
  " 🎖️ You have Prestiged! Prestige level is now " ++ toString level ++ "."

/-- `checkPrestige`: the condition reads the in-memory player object
(`jsPlayer`, re-read before the rank UPDATE, so its `rank` field can lag the
stored row); the UPDATE overwrites xp, rank and prestige on the stored row
(`dbPlayer`). -/
def checkPrestige (jsPlayer dbPlayer : Player) : Player × Bool :=
  if jsPlayer.rank = "Godfather" ∧ 250000 * 2 ^ jsPlayer.prestige ≤ jsPlayer.xp then
    ({ dbPlayer with xp := 0, rank := "Street Rat", prestige := dbPlayer.prestige + 1 }, true)
  else (dbPlayer, false)

/-- A row of the `jobs` ledger. -/
structure Job where
  type : String
  playerId : Nat
  result : String
  xpAtTime : Option Nat := none
  rankAtTime : Option String := none
  prestigeAtTime : Option Nat := none
  prisonStart : Option Nat := none
  prisonEnd : Option Nat := none
deriving DecidableEq, Repr

/-- The requesting player's row plus the job ledger. -/
structure GameState where
  player : Player
  jobs : List Job
deriving DecidableEq, Repr

/-- An HTTP-style response: `res.json({message})` or
`res.status(code).json({error})`. -/
inductive Resp where
  | ok (msg : String)
  | error (status : Nat) (msg : String)
deriving DecidableEq, Repr

/-- `POST /crimes` of the main backend. `r1` is the success draw and `r2`
the reward draw, both in `[0,1)`. After the branch UPDATE the row is re-read,
the rank is recomputed from the updated xp and stored if changed, and
`checkPrestige` runs on the re-read object (whose `rank` field predates the
rank UPDATE). One job row is inserted with the final message. -/
def attemptCrime (st : GameState) (ctype : String) (now : Nat) (r1 r2 : ℚ) :
    GameState × Resp :=
  match crimeTypes ctype with
  | none => (st, Resp.error 400 "Invalid crime type")
  | some crime =>
    if jsIndexOf rankNames (getRank st.player.xp) < jsIndexOf rankNames crime.minRank then
      (st, Resp.error 403 ("You must be at least " ++ crime.minRank ++ " to attempt this crime."))
    else if inPrison st.player now then
      (st, Resp.error 403 "You are in prison")
    else
      let p1 := if r1 < successChance crime st.player.prestige
        then applyCrimeSuccess st.player crime r2
        else applyCrimeFail st.player crime now
      let msg0 := if r1 < successChance crime st.player.prestige
        then successMessage crime r2
        else failMessage crime
      let p2 := if getRank p1.xp ≠ p1.rank then { p1 with rank := getRank p1.xp } else p1
      let msg1 := if getRank p1.xp ≠ p1.rank
        then msg0 ++ " You are now ranked: " ++ getRank p1.xp ++ "."
        else msg0
      let pr := checkPrestige p1 p2
      let msg2 := if pr.2 then msg1 ++ prestigeNote (p1.prestige + 1) else msg1
      ({ player := pr.1,
         jobs := st.jobs ++ [{ type := ctype, playerId := st.player.id, result := msg2 }] },
       Resp.ok msg2)

/-- A crime definition in the fixed backend variant's catalog. -/
structure CrimeF where
  minRank : String
  successXP : Nat
  cashMin : Nat
  cashMax : Nat
  jailMinutes : Nat
deriving DecidableEq, Repr

/-- The fixed variant's `crimeTypes` catalog. -/
def crimeListF : List (String × CrimeF) :=
  [("pickpocket", ⟨"Street Rat", 5, 10, 50, 1⟩),
   ("shoplift", ⟨"Errand Boy", 10, 20, 100, 2⟩),
   ("vandalism", ⟨"Associate", 15, 50, 200, 3⟩),
   ("car_theft", ⟨"Muscle", 25, 200, 800, 5⟩),
   ("smuggling", ⟨"Enforcer", 40, 500, 1500, 10⟩),
   ("kidnap", ⟨"Caporegime", 60, 1000, 2500, 15⟩),
   ("blackmail", ⟨"Caporegime", 70, 1200, 3000, 15⟩),
   ("drug_deal", ⟨"Underboss", 90, 2000, 5000, 20⟩),
   ("hijack_truck", ⟨"Underboss", 120, 3000, 7000, 20⟩),
   ("rob_bank", ⟨"Consigliere", 200, 10000, 20000, 30⟩),
   ("arms_deal", ⟨"Consigliere", 250, 12000, 25000, 30⟩),
   ("political_hit", ⟨"Boss", 500, 25000, 50000, 60⟩),
   ("legendary_heist", ⟨"Godfather", 1000, 50000, 100000, 120⟩)]

/-- `ranks.findIndex(r => r.name === s)` in the fixed variant. -/
def rankIndexF (s : String) : Int :=
  jsIndexOf (ranksTable.map (fun r => r.1)) s

/-- `POST /crimes` of the fixed backend variant: flat `Math.random() < 0.6`
draw; on success, either the prestige branch (already-Godfather player
staying Godfather: prestige+1 and xp reset, rank and cash rows untouched) or
the normal UPDATE writing cash, xp and the recomputed rank. -/
def attemptCrimeF (st : GameState) (ctype : String) (now : Nat) (r1 r2 : ℚ) :
    GameState × Resp :=
  match crimeListF.lookup ctype with
  | none => (st, Resp.error 400 "Invalid crime")
  | some crime =>
    if inPrison st.player now then
      (st, Resp.error 403 "You are in prison")
    else if rankIndexF st.player.rank < rankIndexF crime.minRank then
      (st, Resp.error 403 ("You need to be at least " ++ crime.minRank ++ " to do this crime"))
    else if r1 < (6/10 : ℚ) then
      let cashEarned : Int :=
        Int.floor (r2 * ((crime.cashMax - crime.cashMin + 1 : Nat) : ℚ)) + (crime.cashMin : Int)
      let newXP := st.player.xp + crime.successXP
      let newRank := getRankByXP newXP
      let p1 : Player :=
        if newRank = "Godfather" ∧ st.player.rank = "Godfather" then
          { st.player with prestige := st.player.prestige + 1, xp := 0 }
        else
          { st.player with cash := st.player.cash + cashEarned, xp := newXP, rank := newRank }
      let baseMsg := "Success! You earned $" ++ toString cashEarned ++ " and " ++
        toString crime.successXP ++ " XP."
      let msg1 := if newRank ≠ st.player.rank then
          baseMsg ++ " You are now ranked: " ++ newRank ++ "."
        else baseMsg
      let msg := if newRank = "Godfather" ∧ st.player.rank = "Godfather" then
          msg1 ++ " You have Prestiged! Prestige level is now " ++
            toString (st.player.prestige + 1) ++ "."
        else msg1
      ({ player := p1,
         jobs := st.jobs ++ [{ type := ctype, playerId := st.player.id, result := msg,
                               xpAtTime := some newXP, rankAtTime := some newRank,
                               prestigeAtTime := some st.player.prestige }] },
       Resp.ok msg)
    else
      let jailUntil := now + crime.jailMinutes * 60000
      let msg := "Failed! You are in prison for " ++ toString crime.jailMinutes ++ " minutes."
      ({ player := { st.player with in_prison_until := some jailUntil },
         jobs := st.jobs ++ [{ type := ctype, playerId := st.player.id, result := msg,
                               prisonStart := some now, prisonEnd := some jailUntil }] },
       Resp.ok msg)

/-- `Math.ceil(diff / 60000) * 100` on a positive millisecond difference. -/
def bailCost (diff : Nat) : Nat :=
  ((diff + 59999) / 60000) * 100

/-- `POST /prison/bail`. -/
def payBail (st : GameState) (now : Nat) : GameState × Resp :=
  match st.player.in_prison_until with
  | none => (st, Resp.error 400 "You are not in prison")
  | some expiry =>
    if expiry ≤ now then (st, Resp.error 400 "You are not in prison")
    else
      let cost := bailCost (expiry - now)
      if st.player.cash < (cost : Int) then
        (st, Resp.error 400 ("Bail costs $" ++ toString cost ++ ", but you only have $" ++
          toString st.player.cash))
      else
        ({ player := { st.player with
                         cash := st.player.cash - (cost : Int),
                         in_prison_until := none },
           jobs := st.jobs ++ [{ type := "bail", playerId := st.player.id,
                                 result := st.player.name ++ " paid $" ++ toString cost ++
                                   " bail and was freed.",
                                 prisonStart := some now, prisonEnd := some now }] },
         Resp.ok ("You paid $" ++ toString cost ++ " bail and are now free."))

/-- `successChance = 0.2 + rankIndex * 0.05` for the rescuer. -/
def bustChance (rescuerRank : String) : ℚ :=
  2/10 + ((jsIndexOf rankNames rescuerRank : Int) : ℚ) * (5/100)

/-- `POST /prison/bust`: returns the updated target row, the updated rescuer
row, the ledger and the response. `r` is the success draw in `[0,1)`. -/
def bust (target rescuer : Player) (jobs : List Job) (now : Nat) (r : ℚ) :
    Player × Player × List Job × Resp :=
  match target.in_prison_until with
  | none => (target, rescuer, jobs, Resp.error 400 "That player is not in prison")
  | some e =>
    if e ≤ now then (target, rescuer, jobs, Resp.error 400 "That player is not in prison")
    else if r < bustChance rescuer.rank then
      ({ target with in_prison_until := none }, rescuer,
       jobs ++ [{ type := "bust", playerId := rescuer.id,
                  result := rescuer.name ++ " busted " ++ target.name ++ " out of prison.",
                  prisonStart := some now, prisonEnd := some now }],
       Resp.ok ("You successfully busted " ++ target.name ++ " out of prison!"))
    else
      (target, { rescuer with in_prison_until := some (now + 300000) },
       jobs ++ [{ type := "bust_fail", playerId := rescuer.id,
                  result := rescuer.name ++ " failed to bust " ++ target.name ++
                    " out and got jailed themselves.",
                  prisonStart := some now, prisonEnd := some (now + 300000) }],
       Resp.ok "You failed and got jailed for 5 minutes.")

/-- A fixed job effect from the early variant's `/jobs` route. -/
structure JobEffect where
  cash : Int
  respect : Int
  heat : Int
deriving DecidableEq, Repr

/-- The early variant's job table: fixed cash and respect deltas. -/
def jobEffects : List (String × JobEffect) :=
  [("hit", ⟨-200, 5, 3⟩), ("smuggling", ⟨500, 2, 4⟩), ("bribe", ⟨-300, 0, -5⟩)]

/-- The `/jobs` player UPDATE: `heat = GREATEST(0, heat + delta)`. -/
def applyJob (p : Player) (e : JobEffect) : Player :=
  { p with cash := p.cash + e.cash, respect := p.respect + e.respect,
           heat := max 0 (p.heat + e.heat) }

/-- Catalog sanity: every crime has `cashMin ≤ cashMax` and a positive heat
delta. -/
theorem crimeList_fields (n : String) (c : Crime) (h : (n, c) ∈ crimeList) :
    c.cashMin ≤ c.cashMax ∧ 1 ≤ c.heat := by
  simp [crimeList] at h
  rcases h with ⟨_, rfl⟩|⟨_, rfl⟩|⟨_, rfl⟩|⟨_, rfl⟩|⟨_, rfl⟩|⟨_, rfl⟩|⟨_, rfl⟩|⟨_, rfl⟩|⟨_, rfl⟩|⟨_, rfl⟩|⟨_, rfl⟩|⟨_, rfl⟩|⟨_, rfl⟩ <;>
    exact ⟨by norm_num, by norm_num⟩

/-- The reward draw lands inside the configured cash range. -/
theorem crimeReward_bounds (c : Crime) (r2 : ℚ) (hle : c.cashMin ≤ c.cashMax)
    (h0 : 0 ≤ r2) (h1 : r2 < 1) :
    (c.cashMin : Int) ≤ crimeReward c r2 ∧ crimeReward c r2 ≤ (c.cashMax : Int) := by
  unfold crimeReward
  have hnpos : (0 : ℚ) < ((c.cashMax - c.cashMin + 1 : Nat) : ℚ) :=
    Nat.cast_pos.mpr (Nat.succ_pos _)
  have hA : 0 ≤ Int.floor (r2 * ((c.cashMax - c.cashMin + 1 : Nat) : ℚ)) :=
    Int.floor_nonneg.mpr (mul_nonneg h0 (le_of_lt hnpos))
  have hB : Int.floor (r2 * ((c.cashMax - c.cashMin + 1 : Nat) : ℚ)) <
      ((c.cashMax - c.cashMin + 1 : Nat) : Int) := by
    apply Int.floor_lt.mpr
    have hlt : r2 * ((c.cashMax - c.cashMin + 1 : Nat) : ℚ) <
        1 * ((c.cashMax - c.cashMin + 1 : Nat) : ℚ) :=
      mul_lt_mul_of_pos_right h1 hnpos
    rw [one_mul] at hlt
    exact_mod_cast hlt
  constructor <;> omega

/-- C2: on a successful crime the cash reward lies within the configured
[min,max] inclusive bounds, experience rises by exactly the crime's
configured reward, and the stored heat equals `max 0 (heat + delta)` — the
catalog deltas are positive, so `/crimes` never reaches the floor, while the
early variant's `/jobs` route (fixed cash deltas) clamps heat with GREATEST
explicitly. -/
theorem crime_success_effects (p : Player) (cname : String) (c : Crime) (r2 : ℚ)
    (hmem : (cname, c) ∈ crimeList) (hheat : 0 ≤ p.heat)
    (h0 : 0 ≤ r2) (h1 : r2 < 1) :
    ((c.cashMin : Int) ≤ crimeReward c r2 ∧ crimeReward c r2 ≤ (c.cashMax : Int))
    ∧ (applyCrimeSuccess p c r2).cash = p.cash + crimeReward c r2
    ∧ (applyCrimeSuccess p c r2).xp = p.xp + c.xp
    ∧ (applyCrimeSuccess p c r2).heat = max 0 (p.heat + c.heat)
    ∧ ∀ e : JobEffect, (applyJob p e).cash = p.cash + e.cash ∧
        (applyJob p e).heat = max 0 (p.heat + e.heat) := by
  obtain ⟨hle, hpos⟩ := crimeList_fields cname c hmem
  refine ⟨crimeReward_bounds c r2 hle h0 h1, rfl, rfl, ?_, fun e => ⟨rfl, rfl⟩⟩
  show p.heat + c.heat = max 0 (p.heat + c.heat)
  exact (max_eq_right (by omega)).symm

/-- The pickpocket definition, as listed in the catalog. -/
def pickpocketCrime : Crime := ⟨"Street Rat", 5, 20, 50, 1, 30, 8/10⟩

/-- A fresh player row (starting stake 1000, no record). -/
def freshPlayer : Player :=
  { id := 1, name := "Tony", cash := 1000, respect := 0, heat := 0, xp := 0,
    rank := "Street Rat", prestige := 0, in_prison_until := none }

/-- C2 witness: the theorem applied to a fresh player running pickpocket with
reward draw 1/2. -/
theorem crime_success_effects_w :
    (applyCrimeSuccess freshPlayer pickpocketCrime (1/2)).xp =
      freshPlayer.xp + pickpocketCrime.xp
    ∧ (pickpocketCrime.cashMin : Int) ≤ crimeReward pickpocketCrime (1/2)
    ∧ crimeReward pickpocketCrime (1/2) ≤ (pickpocketCrime.cashMax : Int)
    ∧ (applyCrimeSuccess freshPlayer pickpocketCrime (1/2)).heat =
      max 0 (freshPlayer.heat + pickpocketCrime.heat) := by
  have h := crime_success_effects freshPlayer "pickpocket" pickpocketCrime (1/2)
    (by simp [crimeList, pickpocketCrime]) (by norm_num [freshPlayer])
    (by norm_num) (by norm_num)
  exact ⟨h.2.2.1, h.1.1, h.1.2, h.2.2.2.1⟩

/-- `checkPrestige` never touches cash, heat, respect or the prison expiry of
the stored row. -/
theorem checkPrestige_frame (jsP dbP : Player) :
    (checkPrestige jsP dbP).1.cash = dbP.cash ∧
    (checkPrestige jsP dbP).1.heat = dbP.heat ∧
    (checkPrestige jsP dbP).1.respect = dbP.respect ∧
    (checkPrestige jsP dbP).1.in_prison_until = dbP.in_prison_until := by
  unfold checkPrestige
  split_ifs <;> exact ⟨rfl, rfl, rfl, rfl⟩

/-- C5: for a gate-passing crime attempt the success draw is compared against
`crime.successRate * (1 + 0.05 * prestige)`, and a scaled rate at or above 1
is certain success — the draw lies in `[0,1)`, so the attempt takes the
success branch and the player is never jailed. -/
theorem success_probability_cap (st : GameState) (ctype : String) (crime : Crime)
    (now : Nat) (r1 r2 : ℚ) (hc : crimeTypes ctype = some crime)
    (hgate : ¬ jsIndexOf rankNames (getRank st.player.xp) < jsIndexOf rankNames crime.minRank)
    (hfree : inPrison st.player now = false)
    (h0 : 0 ≤ r1) (h1 : r1 < 1) :
    successChance crime st.player.prestige =
      crime.successRate * (1 + (5/100 : ℚ) * st.player.prestige)
    ∧ (1 ≤ successChance crime st.player.prestige →
        (attemptCrime st ctype now r1 r2).1.player.in_prison_until =
          st.player.in_prison_until) := by
  refine ⟨by unfold successChance; ring, fun hcap => ?_⟩
  have hs : r1 < successChance crime st.player.prestige := lt_of_lt_of_le h1 hcap
  unfold attemptCrime
  rw [hc]
  simp only [if_neg hgate, hfree, Bool.false_eq_true, if_false, if_pos hs]
  by_cases hr : getRank (applyCrimeSuccess st.player crime r2).xp ≠
      (applyCrimeSuccess st.player crime r2).rank
  · rw [if_pos hr, (checkPrestige_frame _ _).2.2.2]
    rfl
  · rw [if_neg hr, (checkPrestige_frame _ _).2.2.2]
    rfl

/-- A player whose prestige multiplier pushes pickpocket past certainty. -/
def luckyPlayer : Player := { freshPlayer with prestige := 5 }

/-- C5 witness: prestige 5 scales pickpocket's 0.8 rate to 1, and the capped
attempt leaves the player free. -/
theorem success_probability_cap_w :
    successChance pickpocketCrime luckyPlayer.prestige =
      pickpocketCrime.successRate * (1 + (5/100 : ℚ) * luckyPlayer.prestige)
    ∧ (attemptCrime { player := luckyPlayer, jobs := [] } "pickpocket" 0 (1/2) 0).1.player.in_prison_until = none := by
  have h := success_probability_cap { player := luckyPlayer, jobs := [] } "pickpocket"
    pickpocketCrime 0 (1/2) 0 rfl (by decide) rfl (by norm_num) (by norm_num)
  exact ⟨h.1, h.2 (by norm_num [successChance, pickpocketCrime, luckyPlayer, freshPlayer])⟩

/-- C3 (amended): whenever the re-read row is at stored rank Godfather and
the post-branch experience meets `250000 * 2 ^ prestige`, the resolution
resets experience to 0 and rank to Street Rat, increments prestige, and
appends the prestige note — after a success (with the crime's xp added) and
equally after a failure (with experience unchanged), because `checkPrestige`
runs after both branches. -/
theorem prestige_rollover (st : GameState) (ctype : String) (crime : Crime) (now : Nat)
    (r1 r2 : ℚ) (hc : crimeTypes ctype = some crime)
    (hgate : ¬ jsIndexOf rankNames (getRank st.player.xp) < jsIndexOf rankNames crime.minRank)
    (hfree : inPrison st.player now = false)
    (hgf : st.player.rank = "Godfather")
    (hxp : 250000 * 2 ^ st.player.prestige ≤
      (if r1 < successChance crime st.player.prestige then st.player.xp + crime.xp
       else st.player.xp)) :
    (attemptCrime st ctype now r1 r2).1.player.xp = 0
    ∧ (attemptCrime st ctype now r1 r2).1.player.rank = "Street Rat"
    ∧ (attemptCrime st ctype now r1 r2).1.player.prestige = st.player.prestige + 1
    ∧ ∃ pre, (attemptCrime st ctype now r1 r2).2 =
        Resp.ok (pre ++ prestigeNote (st.player.prestige + 1)) := by
  unfold attemptCrime
  rw [hc]
  simp only [if_neg hgate, hfree, Bool.false_eq_true, if_false]
  by_cases hs : r1 < successChance crime st.player.prestige
  · rw [if_pos hs] at hxp
    simp only [if_pos hs]
    have hfire : (applyCrimeSuccess st.player crime r2).rank = "Godfather" ∧
        250000 * 2 ^ (applyCrimeSuccess st.player crime r2).prestige ≤
          (applyCrimeSuccess st.player crime r2).xp := ⟨hgf, hxp⟩
    by_cases hr : getRank (applyCrimeSuccess st.player crime r2).xp ≠
        (applyCrimeSuccess st.player crime r2).rank
    · simp only [if_pos hr]
      unfold checkPrestige
      rw [if_pos hfire]
      exact ⟨rfl, rfl, rfl, _, rfl⟩
    · simp only [if_neg hr]
      unfold checkPrestige
      rw [if_pos hfire]
      exact ⟨rfl, rfl, rfl, _, rfl⟩
  · rw [if_neg hs] at hxp
    simp only [if_neg hs]
    have hfire : (applyCrimeFail st.player crime now).rank = "Godfather" ∧
        250000 * 2 ^ (applyCrimeFail st.player crime now).prestige ≤
          (applyCrimeFail st.player crime now).xp := ⟨hgf, hxp⟩
    by_cases hr : getRank (applyCrimeFail st.player crime now).xp ≠
        (applyCrimeFail st.player crime now).rank
    · simp only [if_pos hr]
      unfold checkPrestige
      rw [if_pos hfire]
      exact ⟨rfl, rfl, rfl, _, rfl⟩
    · simp only [if_neg hr]
      unfold checkPrestige
      rw [if_pos hfire]
      exact ⟨rfl, rfl, rfl, _, rfl⟩

/-- The legendary heist definition, as listed in the catalog. -/
def legendaryCrime : Crime := ⟨"Godfather", 500, 200000, 500000, 50, 21600, 5/100⟩

/-- A Godfather-ranked row with the given experience, free, prestige 0. -/
def godfatherState (xp0 : Nat) : GameState :=
  { player := { id := 1, name := "Don", cash := 1000, respect := 0, heat := 0,
                xp := xp0, rank := "Godfather", prestige := 0, in_prison_until := none },
    jobs := [] }

/-- C3 counterexample: the claim says the prestige check never fires on a
failed attempt, but a Godfather at the threshold who fails the legendary
heist draw (0.9 against rate 0.05) is jailed AND rolled over: prestige 1,
xp 0, rank reset. -/
theorem prestige_fires_on_failure_cex :
    (attemptCrime (godfatherState 250000) "legendary_heist" 0 (9/10) 0).1.player.in_prison_until
      = some 21600000
    ∧ (attemptCrime (godfatherState 250000) "legendary_heist" 0 (9/10) 0).1.player.prestige = 1
    ∧ (attemptCrime (godfatherState 250000) "legendary_heist" 0 (9/10) 0).1.player.xp = 0
    ∧ (attemptCrime (godfatherState 250000) "legendary_heist" 0 (9/10) 0).1.player.rank
      = "Street Rat"
    ∧ ¬ ((9:ℚ)/10 < successChance legendaryCrime (godfatherState 250000).player.prestige) := by
  have hfail : ¬ ((9:ℚ)/10 <
      successChance legendaryCrime (godfatherState 250000).player.prestige) := by
    norm_num [successChance, legendaryCrime, godfatherState]
  unfold attemptCrime
  simp only [show crimeTypes "legendary_heist" = some legendaryCrime from rfl]
  rw [if_neg (show ¬ jsIndexOf rankNames (getRank (godfatherState 250000).player.xp) <
    jsIndexOf rankNames legendaryCrime.minRank by decide)]
  rw [show inPrison (godfatherState 250000).player 0 = false from rfl]
  simp only [Bool.false_eq_true, if_false, if_neg hfail]
  rw [if_neg (show ¬ getRank (applyCrimeFail (godfatherState 250000).player legendaryCrime 0).xp ≠
    (applyCrimeFail (godfatherState 250000).player legendaryCrime 0).rank by decide)]
  unfold checkPrestige
  rw [if_pos (show (applyCrimeFail (godfatherState 250000).player legendaryCrime 0).rank
    = "Godfather" ∧ 250000 * 2 ^ (applyCrimeFail (godfatherState 250000).player legendaryCrime 0).prestige
    ≤ (applyCrimeFail (godfatherState 250000).player legendaryCrime 0).xp by decide)]
  exact ⟨rfl, rfl, rfl, rfl, hfail⟩

/-- C3 witness: a successful legendary heist at the threshold applies the
rollover. -/
theorem prestige_rollover_w :
    (attemptCrime (godfatherState 250000) "legendary_heist" 0 0 0).1.player.xp = 0
    ∧ (attemptCrime (godfatherState 250000) "legendary_heist" 0 0 0).1.player.rank = "Street Rat"
    ∧ (attemptCrime (godfatherState 250000) "legendary_heist" 0 0 0).1.player.prestige = 1 := by
  have hs : (0:ℚ) < successChance legendaryCrime 0 := by
    norm_num [successChance, legendaryCrime]
  have h := prestige_rollover (godfatherState 250000) "legendary_heist" legendaryCrime 0 0 0
    rfl (by decide) rfl rfl
    (by show 250000 * 2 ^ (0:Nat) ≤
          (if (0:ℚ) < successChance legendaryCrime 0 then 250000 + legendaryCrime.xp else 250000)
        rw [if_pos hs]
        decide)
  exact ⟨h.1, h.2.1, h.2.2.1⟩

/-- C6 (amended): a failed crime attempt jails the player until exactly
`now + crime.jail * 1000` ms and leaves cash, heat and respect unchanged;
experience and prestige are also unchanged unless the stored row is already
at rank Godfather with experience at or past `250000 * 2 ^ prestige`, in
which case the post-branch prestige check fires even on this failed attempt,
resetting experience to 0 and incrementing prestige. The outcome message
starts from the failure text naming the jail duration. -/
theorem crime_failure_effects (st : GameState) (ctype : String) (crime : Crime) (now : Nat)
    (r1 r2 : ℚ) (hc : crimeTypes ctype = some crime)
    (hgate : ¬ jsIndexOf rankNames (getRank st.player.xp) < jsIndexOf rankNames crime.minRank)
    (hfree : inPrison st.player now = false)
    (hInv : st.player.rank = getRank st.player.xp)
    (hfail : ¬ r1 < successChance crime st.player.prestige) :
    (attemptCrime st ctype now r1 r2).1.player.in_prison_until = some (now + crime.jail * 1000)
    ∧ (attemptCrime st ctype now r1 r2).1.player.cash = st.player.cash
    ∧ (attemptCrime st ctype now r1 r2).1.player.heat = st.player.heat
    ∧ (attemptCrime st ctype now r1 r2).1.player.respect = st.player.respect
    ∧ ((st.player.rank = "Godfather" ∧ 250000 * 2 ^ st.player.prestige ≤ st.player.xp) →
        (attemptCrime st ctype now r1 r2).1.player.xp = 0
        ∧ (attemptCrime st ctype now r1 r2).1.player.prestige = st.player.prestige + 1
        ∧ (attemptCrime st ctype now r1 r2).2 =
            Resp.ok (failMessage crime ++ prestigeNote (st.player.prestige + 1)))
    ∧ (¬ (st.player.rank = "Godfather" ∧ 250000 * 2 ^ st.player.prestige ≤ st.player.xp) →
        (attemptCrime st ctype now r1 r2).1.player.xp = st.player.xp
        ∧ (attemptCrime st ctype now r1 r2).1.player.prestige = st.player.prestige
        ∧ (attemptCrime st ctype now r1 r2).2 = Resp.ok (failMessage crime)) := by
  unfold attemptCrime
  rw [hc]
  simp only [if_neg hgate, hfree, Bool.false_eq_true, if_false, if_neg hfail]
  have hr : ¬ getRank (applyCrimeFail st.player crime now).xp ≠
      (applyCrimeFail st.player crime now).rank := by
    show ¬ getRank st.player.xp ≠ st.player.rank
    rw [hInv]
    exact fun hcon => hcon rfl
  simp only [if_neg hr]
  unfold checkPrestige
  by_cases hfire : st.player.rank = "Godfather" ∧ 250000 * 2 ^ st.player.prestige ≤ st.player.xp
  · rw [if_pos (show (applyCrimeFail st.player crime now).rank = "Godfather" ∧
        250000 * 2 ^ (applyCrimeFail st.player crime now).prestige ≤
          (applyCrimeFail st.player crime now).xp from hfire)]
    exact ⟨rfl, rfl, rfl, rfl, fun _ => ⟨rfl, rfl, rfl⟩, fun hcon => absurd hfire hcon⟩
  · rw [if_neg (show ¬ ((applyCrimeFail st.player crime now).rank = "Godfather" ∧
        250000 * 2 ^ (applyCrimeFail st.player crime now).prestige ≤
          (applyCrimeFail st.player crime now).xp) from hfire)]
    exact ⟨rfl, rfl, rfl, rfl, fun hcon => absurd hcon hfire, fun _ => ⟨rfl, rfl, rfl⟩⟩

/-- The political hit definition, as listed in the catalog. -/
def politicalCrime : Crime := ⟨"Boss", 200, 50000, 100000, 25, 10800, 1/10⟩

/-- C6 counterexample: the claim says a failed attempt never changes
experience, but a Godfather holding 260000 xp who fails a political hit
(draw 0.5 against rate 0.1) is jailed AND has experience reset to 0 with
prestige incremented by the post-branch prestige check. -/
theorem failure_changes_xp_cex :
    (attemptCrime (godfatherState 260000) "political_hit" 0 (1/2) 0).1.player.in_prison_until
      = some 10800000
    ∧ (attemptCrime (godfatherState 260000) "political_hit" 0 (1/2) 0).1.player.xp = 0
    ∧ (attemptCrime (godfatherState 260000) "political_hit" 0 (1/2) 0).1.player.prestige = 1
    ∧ (godfatherState 260000).player.xp = 260000
    ∧ ¬ ((1:ℚ)/2 < successChance politicalCrime (godfatherState 260000).player.prestige) := by
  have hfail : ¬ ((1:ℚ)/2 <
      successChance politicalCrime (godfatherState 260000).player.prestige) := by
    norm_num [successChance, politicalCrime, godfatherState]
  unfold attemptCrime
  simp only [show crimeTypes "political_hit" = some politicalCrime from rfl]
  rw [if_neg (show ¬ jsIndexOf rankNames (getRank (godfatherState 260000).player.xp) <
    jsIndexOf rankNames politicalCrime.minRank by decide)]
  rw [show inPrison (godfatherState 260000).player 0 = false from rfl]
  simp only [Bool.false_eq_true, if_false, if_neg hfail]
  rw [if_neg (show ¬ getRank (applyCrimeFail (godfatherState 260000).player politicalCrime 0).xp ≠
    (applyCrimeFail (godfatherState 260000).player politicalCrime 0).rank by decide)]
  unfold checkPrestige
  rw [if_pos (show (applyCrimeFail (godfatherState 260000).player politicalCrime 0).rank
    = "Godfather" ∧ 250000 * 2 ^ (applyCrimeFail (godfatherState 260000).player politicalCrime 0).prestige
    ≤ (applyCrimeFail (godfatherState 260000).player politicalCrime 0).xp by decide)]
  exact ⟨rfl, rfl, rfl, rfl, hfail⟩

/-- C6 witness: a fresh player failing pickpocket (draw 0.9 against rate 0.8)
is jailed 30 seconds with cash, heat and experience untouched. -/
theorem crime_failure_effects_w :
    (attemptCrime { player := freshPlayer, jobs := [] } "pickpocket" 0 (9/10) 0).1.player.in_prison_until
      = some (0 + pickpocketCrime.jail * 1000)
    ∧ (attemptCrime { player := freshPlayer, jobs := [] } "pickpocket" 0 (9/10) 0).1.player.cash
      = freshPlayer.cash
    ∧ (attemptCrime { player := freshPlayer, jobs := [] } "pickpocket" 0 (9/10) 0).1.player.heat
      = freshPlayer.heat
    ∧ (attemptCrime { player := freshPlayer, jobs := [] } "pickpocket" 0 (9/10) 0).1.player.xp
      = freshPlayer.xp := by
  have h := crime_failure_effects { player := freshPlayer, jobs := [] } "pickpocket"
    pickpocketCrime 0 (9/10) 0 rfl (by decide) rfl rfl
    (by norm_num [successChance, pickpocketCrime, freshPlayer])
  exact ⟨h.1, h.2.1, h.2.2.1, (h.2.2.2.2.2 (by decide)).1⟩

/-- C9: a crime attempt is rejected with no state change (player row and job
ledger both untouched) when the rank derived from the player's experience
sits below the crime's unlock rank, and likewise — whatever the crime id or
rank — whenever the incarceration expiry lies in the future. -/
theorem crime_gates_reject (st : GameState) (ctype : String) (now : Nat) (r1 r2 : ℚ) :
    (∀ crime, crimeTypes ctype = some crime →
      jsIndexOf rankNames (getRank st.player.xp) < jsIndexOf rankNames crime.minRank →
      attemptCrime st ctype now r1 r2 =
        (st, Resp.error 403 ("You must be at least " ++ crime.minRank ++ " to attempt this crime.")))
    ∧ (∀ t, st.player.in_prison_until = some t → now < t →
      ∃ s e, attemptCrime st ctype now r1 r2 = (st, Resp.error s e)) := by
  constructor
  · intro crime hcget hlt
    unfold attemptCrime
    simp only [hcget]
    rw [if_pos hlt]
  · intro t hsome hlt
    have hp : inPrison st.player now = true := by
      unfold inPrison
      rw [hsome]
      simpa using hlt
    cases hcc : crimeTypes ctype with
    | none =>
      refine ⟨400, "Invalid crime type", ?_⟩
      unfold attemptCrime
      simp only [hcc]
    | some crime =>
      by_cases hg : jsIndexOf rankNames (getRank st.player.xp) < jsIndexOf rankNames crime.minRank
      · refine ⟨403, "You must be at least " ++ crime.minRank ++ " to attempt this crime.", ?_⟩
        unfold attemptCrime
        simp only [hcc]
        rw [if_pos hg]
      · refine ⟨403, "You are in prison", ?_⟩
        unfold attemptCrime
        simp only [hcc, hp]
        rw [if_neg hg]
        simp

/-- C7: from an incarcerated state the bail cost is the exact minute ceiling
of the remaining time, times 100 — the cost divided by 100 is the least
whole-minute count covering the difference; short cash is rejected with no
change, sufficient cash clears the expiry, deducts exactly the cost and logs
one "bail" job; bail from a free state is rejected. -/
theorem bail_rules (st : GameState) (now e : Nat)
    (hexp : st.player.in_prison_until = some e) (hlt : now < e) :
    bailCost (e - now) = ((e - now) + 59999) / 60000 * 100
    ∧ (e - now) ≤ ((e - now) + 59999) / 60000 * 60000
    ∧ ((e - now) + 59999) / 60000 * 60000 < (e - now) + 60000
    ∧ (st.player.cash < (bailCost (e - now) : Int) →
        payBail st now = (st, Resp.error 400 ("Bail costs $" ++ toString (bailCost (e - now)) ++
          ", but you only have $" ++ toString st.player.cash)))
    ∧ ((bailCost (e - now) : Int) ≤ st.player.cash →
        (payBail st now).1.player.cash = st.player.cash - (bailCost (e - now) : Int)
        ∧ (payBail st now).1.player.in_prison_until = none
        ∧ (payBail st now).1.jobs = st.jobs ++
            [{ type := "bail", playerId := st.player.id,
               result := st.player.name ++ " paid $" ++ toString (bailCost (e - now)) ++
                 " bail and was freed.",
               prisonStart := some now, prisonEnd := some now }]
        ∧ (payBail st now).2 = Resp.ok ("You paid $" ++ toString (bailCost (e - now)) ++
            " bail and are now free."))
    ∧ (∀ st2 : GameState, ∀ now2 : Nat,
        (st2.player.in_prison_until = none ∨
          ∃ e2, st2.player.in_prison_until = some e2 ∧ e2 ≤ now2) →
        payBail st2 now2 = (st2, Resp.error 400 "You are not in prison")) := by
  refine ⟨rfl, by omega, by omega, ?_, ?_, ?_⟩
  · intro hpoor
    unfold payBail
    simp only [hexp]
    rw [if_neg (show ¬ e ≤ now by omega), if_pos hpoor]
  · intro hrich
    unfold payBail
    simp only [hexp]
    rw [if_neg (show ¬ e ≤ now by omega),
      if_neg (show ¬ st.player.cash < (bailCost (e - now) : Int) by omega)]
    exact ⟨rfl, rfl, rfl, rfl⟩
  · intro st2 now2 hfreecase
    unfold payBail
    rcases hfreecase with hnone | ⟨e2, hsome2, hle2⟩
    · simp only [hnone]
    · simp only [hsome2]
      rw [if_pos hle2]

/-- An incarcerated row (5 minutes = 300000 ms left from time 0) with the
given cash. -/
def jailedState (cash0 : Int) : GameState :=
  { player := { id := 2, name := "Vito", cash := cash0, respect := 0, heat := 0,
                xp := 0, rank := "Street Rat", prestige := 0,
                in_prison_until := some 300000 },
    jobs := [] }

/-- C7 witness: with exactly 5 minutes left the cost is 500; cash 500 pays
and frees, cash 499 is rejected unchanged. -/
theorem bail_rules_w :
    bailCost (300000 - 0) = 500
    ∧ (payBail (jailedState 500) 0).1.player.in_prison_until = none
    ∧ (payBail (jailedState 500) 0).1.player.cash =
        (jailedState 500).player.cash - (bailCost (300000 - 0) : Int)
    ∧ payBail (jailedState 499) 0 = ((jailedState 499), Resp.error 400
        ("Bail costs $" ++ toString (bailCost (300000 - 0)) ++ ", but you only have $" ++
          toString (jailedState 499).player.cash)) := by
  have h500 := bail_rules (jailedState 500) 0 300000 rfl (by decide)
  have h499 := bail_rules (jailedState 499) 0 300000 rfl (by decide)
  have hpay := h500.2.2.2.2.1 (by decide)
  refine ⟨by decide, hpay.2.1, hpay.1, h499.2.2.2.1 (by decide)⟩

/-- C8: against a currently incarcerated target, the bust draw is compared
against `0.2 + 0.05 * rankIndex(rescuer.rank)` (7/20 for Muscle, rank index
3); success clears the target's expiry, leaves the rescuer untouched and
logs a "bust" job for the rescuer; failure jails the rescuer for exactly 5
minutes and logs "bust_fail"; a bust against a free target is rejected with
nothing written. -/
theorem bust_rules (target rescuer : Player) (jobs : List Job) (now e : Nat) (r : ℚ)
    (hexp : target.in_prison_until = some e) (hlt : now < e) :
    bustChance rescuer.rank =
      2/10 + (5/100 : ℚ) * ((jsIndexOf rankNames rescuer.rank : Int) : ℚ)
    ∧ bustChance "Muscle" = 35/100
    ∧ (r < bustChance rescuer.rank →
        (bust target rescuer jobs now r).1 = { target with in_prison_until := none }
        ∧ (bust target rescuer jobs now r).2.1 = rescuer
        ∧ (bust target rescuer jobs now r).2.2.1 = jobs ++
            [{ type := "bust", playerId := rescuer.id,
               result := rescuer.name ++ " busted " ++ target.name ++ " out of prison.",
               prisonStart := some now, prisonEnd := some now }]
        ∧ (bust target rescuer jobs now r).2.2.2 =
            Resp.ok ("You successfully busted " ++ target.name ++ " out of prison!"))
    ∧ (¬ r < bustChance rescuer.rank →
        (bust target rescuer jobs now r).1 = target
        ∧ (bust target rescuer jobs now r).2.1 =
            { rescuer with in_prison_until := some (now + 300000) }
        ∧ (bust target rescuer jobs now r).2.2.1 = jobs ++
            [{ type := "bust_fail", playerId := rescuer.id,
               result := rescuer.name ++ " failed to bust " ++ target.name ++
                 " out and got jailed themselves.",
               prisonStart := some now, prisonEnd := some (now + 300000) }]
        ∧ (bust target rescuer jobs now r).2.2.2 =
            Resp.ok "You failed and got jailed for 5 minutes.")
    ∧ (∀ t2 : Player,
        (t2.in_prison_until = none ∨ ∃ e2, t2.in_prison_until = some e2 ∧ e2 ≤ now) →
        bust t2 rescuer jobs now r =
          (t2, rescuer, jobs, Resp.error 400 "That player is not in prison")) := by
  refine ⟨by unfold bustChance; ring, ?_, ?_, ?_, ?_⟩
  · have h3 : jsIndexOf rankNames "Muscle" = 3 := by decide
    unfold bustChance
    rw [h3]
    norm_num
  · intro hwin
    unfold bust
    simp only [hexp]
    rw [if_neg (show ¬ e ≤ now by omega), if_pos hwin]
    exact ⟨rfl, rfl, rfl, rfl⟩
  · intro hfail
    unfold bust
    simp only [hexp]
    rw [if_neg (show ¬ e ≤ now by omega), if_neg hfail]
    exact ⟨rfl, rfl, rfl, rfl⟩
  · intro t2 hfreecase
    unfold bust
    rcases hfreecase with hnone | ⟨e2, hsome2, hle2⟩
    · simp only [hnone]
    · simp only [hsome2]
      rw [if_pos hle2]

/-- A Muscle-ranked rescuer, free, with Muscle-level experience. -/
def muscleRescuer : Player :=
  { id := 3, name := "Rocco", cash := 0, respect := 0, heat := 0, xp := 800,
    rank := "Muscle", prestige := 0, in_prison_until := none }

/-- C8 witness: a Muscle rescuer (chance 7/20) drawing 1/4 frees the jailed
target; the rescuer row is untouched. -/
theorem bust_rules_w :
    bustChance muscleRescuer.rank = 35/100
    ∧ (bust (jailedState 500).player muscleRescuer [] 0 (1/4)).1 =
        { (jailedState 500).player with in_prison_until := none }
    ∧ (bust (jailedState 500).player muscleRescuer [] 0 (1/4)).2.1 = muscleRescuer := by
  have h := bust_rules (jailedState 500).player muscleRescuer [] 0 300000 (1/4) rfl (by decide)
  have hwin : (1:ℚ)/4 < bustChance muscleRescuer.rank := by
    show (1:ℚ)/4 < bustChance "Muscle"
    rw [h.2.1]
    norm_num
  have hw := h.2.2.1 hwin
  exact ⟨h.2.1, hw.1, hw.2.1⟩

/-- C10: a failed bust writes only the rescuer's incarceration expiry; the
target's row is returned entirely unchanged. -/
theorem bust_fail_frame (target rescuer : Player) (jobs : List Job) (now e : Nat) (r : ℚ)
    (hexp : target.in_prison_until = some e) (hlt : now < e)
    (hfail : ¬ r < bustChance rescuer.rank) :
    (bust target rescuer jobs now r).1 = target
    ∧ (bust target rescuer jobs now r).2.1 =
        { rescuer with in_prison_until := some (now + 300000) } := by
  unfold bust
  simp only [hexp]
  rw [if_neg (show ¬ e ≤ now by omega), if_neg hfail]
  exact ⟨rfl, rfl⟩

/-- C10 witness: a Muscle rescuer drawing 0.9 fails; the jailed target keeps
its row verbatim and only the rescuer is jailed for 5 minutes. -/
theorem bust_fail_frame_w :
    (bust (jailedState 500).player muscleRescuer [] 0 (9/10)).1 = (jailedState 500).player
    ∧ (bust (jailedState 500).player muscleRescuer [] 0 (9/10)).2.1 =
        { muscleRescuer with in_prison_until := some (0 + 300000) } := by
  have hfail : ¬ (9:ℚ)/10 < bustChance muscleRescuer.rank := by
    show ¬ (9:ℚ)/10 < bustChance "Muscle"
    unfold bustChance
    rw [show jsIndexOf rankNames "Muscle" = 3 by decide]
    norm_num
  exact bust_fail_frame (jailedState 500).player muscleRescuer [] 0 300000 (9/10)
    rfl (by decide) hfail

/-- The fixed variant's legendary heist definition. -/
def legendaryCrimeF : CrimeF := ⟨"Godfather", 1000, 50000, 100000, 120⟩

/-- C4: in the fixed backend variant, a successful crime by an
already-Godfather player takes the prestige branch, which resets experience
to 0 without ever writing rank — the stored rank stays "Godfather" while the
ladder lookup for the stored experience says "Street Rat", violating the
rank-derivation invariant the spec calls mandatory. -/
theorem fixed_variant_rank_divergence :
    (attemptCrimeF (godfatherState 250000) "legendary_heist" 0 0 0).1.player.xp = 0
    ∧ (attemptCrimeF (godfatherState 250000) "legendary_heist" 0 0 0).1.player.rank = "Godfather"
    ∧ (attemptCrimeF (godfatherState 250000) "legendary_heist" 0 0 0).1.player.prestige = 1
    ∧ getRankByXP 0 = "Street Rat"
    ∧ (attemptCrimeF (godfatherState 250000) "legendary_heist" 0 0 0).1.player.rank ≠
        getRankByXP (attemptCrimeF (godfatherState 250000) "legendary_heist" 0 0 0).1.player.xp := by
  unfold attemptCrimeF
  simp only [show crimeListF.lookup "legendary_heist" = some legendaryCrimeF from rfl]
  rw [show inPrison (godfatherState 250000).player 0 = false from rfl]
  simp only [Bool.false_eq_true, if_false]
  rw [if_neg (show ¬ rankIndexF (godfatherState 250000).player.rank <
    rankIndexF legendaryCrimeF.minRank by decide)]
  rw [if_pos (show (0:ℚ) < 6/10 by norm_num)]
  rw [if_pos (show getRankByXP ((godfatherState 250000).player.xp + legendaryCrimeF.successXP)
    = "Godfather" ∧ (godfatherState 250000).player.rank = "Godfather" by decide)]
  exact ⟨rfl, rfl, rfl, by decide, by decide⟩

/-- The main backend's `POST /crimes`, by contrast, re-derives the stored
rank from the stored experience on every resolved attempt: whenever the
handler answers with a success response, the resulting row satisfies
`rank = getRank xp`. -/
theorem attemptCrime_rank_invariant (st : GameState) (ctype : String) (now : Nat)
    (r1 r2 : ℚ) (msg : String)
    (hok : (attemptCrime st ctype now r1 r2).2 = Resp.ok msg) :
    (attemptCrime st ctype now r1 r2).1.player.rank =
      getRank (attemptCrime st ctype now r1 r2).1.player.xp := by
  unfold attemptCrime at hok ⊢
  cases hcc : crimeTypes ctype with
  | none =>
    simp only [hcc] at hok
    exact absurd hok (by simp)
  | some crime =>
    simp only [hcc] at hok ⊢
    by_cases hg : jsIndexOf rankNames (getRank st.player.xp) < jsIndexOf rankNames crime.minRank
    · rw [if_pos hg] at hok
      exact absurd hok (by simp)
    · rw [if_neg hg] at hok ⊢
      by_cases hp : inPrison st.player now
      · simp only [hp, if_true] at hok
        exact absurd hok (by simp)
      · simp only [eq_false_of_ne_true hp, Bool.false_eq_true, if_false]
        by_cases hs : r1 < successChance crime st.player.prestige
        · simp only [if_pos hs]
          by_cases hr : getRank (applyCrimeSuccess st.player crime r2).xp ≠
              (applyCrimeSuccess st.player crime r2).rank
          · simp only [if_pos hr]
            unfold checkPrestige
            by_cases hfire : (applyCrimeSuccess st.player crime r2).rank = "Godfather" ∧
                250000 * 2 ^ (applyCrimeSuccess st.player crime r2).prestige ≤
                  (applyCrimeSuccess st.player crime r2).xp
            · rw [if_pos hfire]
              rfl
            · rw [if_neg hfire]
          · simp only [if_neg hr]
            unfold checkPrestige
            by_cases hfire : (applyCrimeSuccess st.player crime r2).rank = "Godfather" ∧
                250000 * 2 ^ (applyCrimeSuccess st.player crime r2).prestige ≤
                  (applyCrimeSuccess st.player crime r2).xp
            · rw [if_pos hfire]
              rfl
            · rw [if_neg hfire]
              exact (not_not.mp hr).symm
        · simp only [if_neg hs]
          by_cases hr : getRank (applyCrimeFail st.player crime now).xp ≠
              (applyCrimeFail st.player crime now).rank
          · simp only [if_pos hr]
            unfold checkPrestige
            by_cases hfire : (applyCrimeFail st.player crime now).rank = "Godfather" ∧
                250000 * 2 ^ (applyCrimeFail st.player crime now).prestige ≤
                  (applyCrimeFail st.player crime now).xp
            · rw [if_pos hfire]
              rfl
            · rw [if_neg hfire]
          · simp only [if_neg hr]
            unfold checkPrestige
            by_cases hfire : (applyCrimeFail st.player crime now).rank = "Godfather" ∧
                250000 * 2 ^ (applyCrimeFail st.player crime now).prestige ≤
                  (applyCrimeFail st.player crime now).xp
            · rw [if_pos hfire]
              rfl
            · rw [if_neg hfire]
              exact (not_not.mp hr).symm
